import Mathlib

/-!
Verification of the batch URL validation, download-job orchestration, packaging
and cleanup logic of the TikTok bulk downloader (`src/main.py`).

The Python source is shallowly embedded as executable Lean definitions:

* `validate_urls` / `ensure_valid_url` embed `DownloadRequest.validate_urls`
  and `DownloadRequest._ensure_valid_url` (src/main.py lines 45-77).
  The stdlib calls they make (`str.strip`, `urllib.parse.urlparse`,
  `str.lower`, `str.endswith`) are modelled by the `py*` functions below,
  faithful to CPython for ASCII input (the allow-list comparison is ASCII,
  so only ASCII hostnames can ever match).  The IPv6-literal validation that
  CPython 3.11+ performs on bracketed netlocs and the NFKC netloc check for
  non-ASCII netlocs are not modelled; no theorem below touches such inputs.
* `fetchLoop` / `run_download_job` embed `_run_download_job`
  (src/main.py lines 128-165).  The external fetcher (`yt_dlp`) is a
  parameter `fetch : String → FetchOutcome`: a fetch either succeeds and
  writes some filesystem entries into the job workspace, raises
  `DownloadError`, or raises some other exception (the two `except` arms of
  the source).  Filesystem state is modelled as the list of immediate
  children of the workspace directory.
* `cleanup_paths` embeds `_cleanup_paths` (lines 89-98); the filesystem
  calls it makes are an oracle `FsOps` whose operations may raise.  The
  function returns the list of paths whose deletion was attempted, and its
  return type is not `Except`: the `except Exception: continue` of the
  source makes it total.
* `download_videos` embeds the `/api/download` endpoint (lines 176-205) from
  the point where a validated payload is handed to `_run_download_job`.
  `json_dumps_summary_counts` embeds the `json.dumps` call on line 192,
  which uses Python's default separators `", "` and `": "`.
-/

deriving instance DecidableEq for Except

namespace TikTokDL

/-! ## Python string primitives used by the validator -/

/-- Whitespace recognised by `str.strip` (ASCII range). -/
def pyIsSpace (c : Char) : Bool :=
  c == ' ' || c == '\t' || c == '\n' || c == '\r' || c == '\x0b' || c == '\x0c'

/-- Model of `str.strip`: drop leading and trailing whitespace (source line 52). -/
def pyStrip (s : String) : String :=
  ⟨((s.data.dropWhile pyIsSpace).reverse.dropWhile pyIsSpace).reverse⟩

/-- Model of `str.endswith` (source line 74). -/
def pyEndswith (s suffix : String) : Bool :=
  decide (suffix.data.length ≤ s.data.length) &&
    (s.data.drop (s.data.length - suffix.data.length)) == suffix.data

/-- Characters allowed in a URL scheme, `urllib.parse.scheme_chars`. -/
def schemeChar (c : Char) : Bool :=
  c.isAlpha || c.isDigit || c == '+' || c == '-' || c == '.'

/-- `urlsplit` deletes every tab, CR and LF byte of the URL before parsing. -/
def removeTabCrLf (l : List Char) : List Char :=
  l.filter (fun c => !(c == '\t' || c == '\r' || c == '\n'))

/-- The fields of `urllib.parse.urlparse`'s result that the validator reads. -/
structure PySplitResult where
  scheme : String
  netloc : String
  deriving DecidableEq

/-- Model of `urllib.parse.urlsplit` (which `urlparse` defers to) restricted to
the `scheme` and `netloc` components: remove tab/CR/LF; if the text before the
first `:` is a non-empty run of scheme characters starting with an ASCII
letter, it is the scheme, lowercased; a netloc follows a leading `//` and
extends to the first `/`, `?` or `#`; a netloc containing `[` without `]` (or
vice versa) raises `ValueError("Invalid IPv6 URL")`. -/
def pyUrlsplit (url : String) : Except String PySplitResult :=
  let l := removeTabCrLf url.data
  let sp : List Char × List Char :=
    match l.findIdx? (fun c => c == ':') with
    | some i =>
      if 0 < i && (match l with | c :: _ => c.isAlpha | [] => false)
          && (l.take i).all schemeChar then
        ((l.take i).map Char.toLower, l.drop (i + 1))
      else ([], l)
    | none => ([], l)
  let netloc : List Char :=
    if sp.2.take 2 = ['/', '/'] then
      (sp.2.drop 2).takeWhile (fun c => !(c == '/' || c == '?' || c == '#'))
    else []
  if (netloc.contains '[') != (netloc.contains ']') then
    .error "Invalid IPv6 URL"
  else
    .ok ⟨⟨sp.1⟩, ⟨netloc⟩⟩

/-- Model of the `SplitResult.hostname` property: strip the userinfo at the
last `@`; inside `[` brackets take up to `]`, otherwise take up to the port
`:`; lowercase.  Returns `""` where Python returns `None` (the source
immediately replaces `None` by `""` on line 73). -/
def pyHostname (netloc : List Char) : List Char :=
  let hostinfo := (netloc.reverse.takeWhile (fun c => !(c == '@'))).reverse
  let host :=
    if hostinfo.contains '[' then
      ((hostinfo.dropWhile (fun c => !(c == '['))).drop 1).takeWhile (fun c => !(c == ']'))
    else
      hostinfo.takeWhile (fun c => !(c == ':'))
  host.map Char.toLower

/-! ## Constants and error messages of the source -/

/-- `MAX_URLS` (source line 24). -/
def MAX_URLS : Nat := 100

/-- `TIKTOK_DOMAINS` (source lines 25-30). -/
def TIKTOK_DOMAINS : List String :=
  ["tiktok.com", "www.tiktok.com", "m.tiktok.com", "vm.tiktok.com"]

/-- Message of the scheme `ValueError` (source line 71). -/
def MSG_SCHEME : String := "URLスキームはhttpまたはhttpsのみ利用できます。"

/-- Message of the domain `ValueError` (source line 75). -/
def MSG_DOMAIN : String := "TikTokのURLのみ指定してください。"

/-- Message of the empty-batch `ValueError` (source line 61). -/
def MSG_EMPTY : String := "TikTokのURLを1件以上入力してください。"

/-- Message of the oversized-batch `ValueError` (source line 63). -/
def MSG_MAX : String := "URLは最大" ++ toString MAX_URLS ++ "件まで指定できます。"

/-- Message of the `RuntimeError` raised when no file was produced (line 155). -/
def MSG_DOWNLOAD_FAILED : String := "動画のダウンロードに失敗しました。"

/-! ## The URL validator -/

/-- The expression `(parsed.hostname or "").lower()` of source line 73. -/
def hostOf (parsed : PySplitResult) : String :=
  ⟨(pyHostname parsed.netloc.data).map Char.toLower⟩

/-- The allow-list test of source line 74:
`any(hostname == domain or hostname.endswith(f".{domain}") for domain in TIKTOK_DOMAINS)`. -/
def hostAllowed (hostname : String) : Bool :=
  TIKTOK_DOMAINS.any (fun domain =>
    hostname == domain || pyEndswith hostname ("." ++ domain))

/-- Embedding of `DownloadRequest._ensure_valid_url` (source lines 67-77):
parse the URL; reject a scheme other than `http`/`https`; reject a hostname
that neither equals an allow-listed domain nor ends with `"." + domain`;
otherwise return the URL unchanged. -/
def ensure_valid_url (url : String) : Except String String :=
  match pyUrlsplit url with
  | .error e => .error e
  | .ok parsed =>
    if !(parsed.scheme == "http" || parsed.scheme == "https") then
      .error MSG_SCHEME
    else if hostAllowed (hostOf parsed) then
      .ok url
    else
      .error MSG_DOMAIN

/-- The `for raw in urls` loop of `DownloadRequest.validate_urls`
(source lines 51-58): strip each entry, silently drop empties, validate,
deduplicate by membership in `seen` keeping the first occurrence. -/
def cleanLoop (seen cleaned : List String) : List String → Except String (List String)
  | [] => .ok cleaned
  | raw :: rest =>
    if pyStrip raw = "" then cleanLoop seen cleaned rest
    else
      match ensure_valid_url (pyStrip raw) with
      | .error e => .error e
      | .ok normalized =>
        if seen.contains normalized then cleanLoop seen cleaned rest
        else cleanLoop (normalized :: seen) (cleaned ++ [normalized]) rest

/-- Embedding of `DownloadRequest.validate_urls` (source lines 45-65). -/
def validate_urls (urls : List String) : Except String (List String) :=
  match cleanLoop [] [] urls with
  | .error e => .error e
  | .ok cleaned =>
    if cleaned = [] then .error MSG_EMPTY
    else if MAX_URLS < cleaned.length then .error MSG_MAX
    else .ok cleaned

example : ensure_valid_url "https://www.tiktok.com/@user/video/123" =
    .ok "https://www.tiktok.com/@user/video/123" := by decide
example : ensure_valid_url "not a url" = .error MSG_SCHEME := by decide
example : ensure_valid_url "https://example.com/x" = .error MSG_DOMAIN := by decide
example : ensure_valid_url "HTTP://VM.TikTok.com:80/v" = .ok "HTTP://VM.TikTok.com:80/v" := by decide
example : ensure_valid_url "https://sub.m.tiktok.com/v" = .ok "https://sub.m.tiktok.com/v" := by decide
example : ensure_valid_url "https://eviltiktok.com/v" = .error MSG_DOMAIN := by decide
example : validate_urls [" https://tiktok.com/a ", "", "https://tiktok.com/a", "https://tiktok.com/b"] =
    .ok ["https://tiktok.com/a", "https://tiktok.com/b"] := by decide

/-! ## The batch job runner -/

/-- An immediate child of the job workspace directory: a regular file, or a
directory (with the names of the files it contains).  `path.is_file()` on
source line 153 is true exactly for the `file` constructor. -/
inductive FsEntry where
  | file (name : String)
  | dir (name : String) (files : List String)
  deriving DecidableEq

/-- `is_file` test of source line 153. -/
def FsEntry.isFile : FsEntry → Bool
  | .file _ => true
  | .dir _ _ => false

/-- Outcome of one `ydl.download([url])` call (source line 146): success
(writing `files` into the workspace), a raised `yt_dlp.utils.DownloadError`,
or any other raised exception — the two `except` arms of lines 148-151. -/
inductive FetchOutcome where
  | ok (files : List FsEntry)
  | downloadError (reason : String)
  | otherError (reason : String)
  deriving DecidableEq

/-- Whether the fetch call returned without raising. -/
def FetchOutcome.isOk : FetchOutcome → Bool
  | .ok _ => true
  | .downloadError _ => false
  | .otherError _ => false

/-- One `{"url": url, "reason": str(exc)}` element of `summary["failed"]`. -/
structure FailedEntry where
  url : String
  reason : String
  deriving DecidableEq

/-- The failed-list entry a URL contributes, if its fetch raises. -/
def failEntryOf (fetch : String → FetchOutcome) (u : String) : Option FailedEntry :=
  match fetch u with
  | .ok _ => none
  | .downloadError r => some ⟨u, r⟩
  | .otherError r => some ⟨u, r⟩

/-- State accumulated by the `for url in urls` loop of `_run_download_job`:
the success counter, the failed list, and the files written into the
workspace so far. -/
structure LoopState where
  success : Nat
  failed : List FailedEntry
  workspace : List FsEntry
  deriving DecidableEq

/-- Embedding of the fetch loop (source lines 143-151): each URL, in input
order, is fetched once; success increments the counter and adds the produced
entries to the workspace; either kind of exception appends `{url, reason}` to
the failed list and the loop continues. -/
def fetchLoop (fetch : String → FetchOutcome) : List String → LoopState
  | [] => ⟨0, [], []⟩
  | u :: rest =>
    let st := fetchLoop fetch rest
    match fetch u with
    | .ok files => ⟨st.success + 1, st.failed, files ++ st.workspace⟩
    | .downloadError r => ⟨st.success, ⟨u, r⟩ :: st.failed, st.workspace⟩
    | .otherError r => ⟨st.success, ⟨u, r⟩ :: st.failed, st.workspace⟩

/-- The `summary` dict of source lines 133-139 in its final state. -/
structure JobSummary where
  job_id : String
  total : Nat
  success : Nat
  failed : List FailedEntry
  generated_at : String
  deriving DecidableEq

/-- The `RuntimeError` of source line 155 (`NoArtifacts` in the spec). -/
inductive JobError where
  | noArtifacts
  deriving DecidableEq

/-- Name of the report file written on lines 157-158. -/
def REPORT_FILENAME : String := "download_report.json"

/-- What `_run_download_job` hands back on success: the contents of the
archive produced by `shutil.make_archive` over the workspace (the fetched
entries plus the report file), and the summary. -/
structure JobResult where
  archive : List FsEntry
  summary : JobSummary
  deriving DecidableEq

/-- Embedding of `_run_download_job` (source lines 128-165): run the fetch
loop; list the immediate children of the workspace that are regular files
(line 153); if there are none, raise `RuntimeError` (lines 154-155); only
then write the report file into the workspace (lines 157-158) and archive the
whole workspace (lines 160-163).  `job_id` (the `uuid4` hex) and
`generated_at` (the UTC timestamp) are parameters of the model. -/
def run_download_job (job_id generated_at : String) (fetch : String → FetchOutcome)
    (urls : List String) : Except JobError JobResult :=
  if (((fetchLoop fetch urls).workspace.filter FsEntry.isFile).isEmpty) then
    .error .noArtifacts
  else
    .ok ⟨(fetchLoop fetch urls).workspace ++ [FsEntry.file REPORT_FILENAME],
         ⟨job_id, urls.length, (fetchLoop fetch urls).success,
          (fetchLoop fetch urls).failed, generated_at⟩⟩

/-! ## Cleanup -/

/-- The filesystem operations `_cleanup_paths` performs on one path, each of
which may raise (`Path.is_dir`, `shutil.rmtree`, `Path.exists`,
`Path.unlink`).  An arbitrary oracle: no assumption about how they behave. -/
structure FsOps where
  is_dir : String → Except String Bool
  rmtree : String → Except String Unit
  path_exists : String → Except String Bool
  unlink : String → Except String Unit

/-- Body of the `try` block of `_cleanup_paths` (source lines 92-95). -/
def cleanupOne (fs : FsOps) (p : String) : Except String Unit := do
  let d ← fs.is_dir p
  if d then fs.rmtree p
  else do
    let e ← fs.path_exists p
    if e then fs.unlink p else pure ()

/-- Embedding of `_cleanup_paths` (source lines 89-98).  The `except
Exception: continue` arm makes the loop total: the function returns the list
of paths whose deletion was attempted instead of raising — its return type
has no error case. -/
def cleanup_paths (fs : FsOps) : List String → List String
  | [] => []
  | p :: rest =>
    match cleanupOne fs p with
    | .ok _ => p :: cleanup_paths fs rest
    | .error _ => p :: cleanup_paths fs rest

/-! ## The HTTP endpoint -/

/-- An `HTTPException` raised by the endpoint. -/
structure HttpErr where
  status : Nat
  detail : String
  deriving DecidableEq

/-- The streamed response of the endpoint: its headers and the archive
contents it streams. -/
structure HttpResponse where
  headers : List (String × String)
  archive : List FsEntry
  deriving DecidableEq

/-- Embedding of the `json.dumps` call of source lines 192-198.  Python's
`json.dumps` without a `separators` argument uses the defaults
`(", ", ": ")`, so the emitted object contains a space after every colon and
comma. -/
def json_dumps_summary_counts (total success failedLen : Nat) : String :=
  "\x7b\"total\": " ++ toString total ++ ", \"success\": " ++ toString success ++
    ", \"failed\": " ++ toString failedLen ++ "\x7d"

/-- The f-string `f"tiktok_videos_\x7bsummary['job_id']\x7d.zip"` inside the
`Content-Disposition` header of source line 190. -/
def zip_filename (job_id : String) : String :=
  "tiktok_videos_" ++ job_id ++ ".zip"

/-- The response headers dict of source lines 189-199. -/
def response_headers (job_id : String) (total success failedLen : Nat) :
    List (String × String) :=
  [("Content-Disposition", "attachment; filename=\"" ++ zip_filename job_id ++ "\""),
   ("X-Job-Id", job_id),
   ("X-Download-Summary", json_dumps_summary_counts total success failedLen)]

/-- Embedding of the `download_videos` endpoint (source lines 176-205) from
the point where the validated URL list is handed to `_run_download_job`: the
`RuntimeError` of a fruitless job becomes an `HTTPException(500, str(exc))`
(line 182-183) and no archive is streamed; on success the archive is streamed
with the headers of lines 189-199. -/
def download_videos (job_id generated_at : String) (fetch : String → FetchOutcome)
    (urls : List String) : Except HttpErr HttpResponse :=
  match run_download_job job_id generated_at fetch urls with
  | .error .noArtifacts => .error ⟨500, MSG_DOWNLOAD_FAILED⟩
  | .ok res =>
    .ok ⟨response_headers job_id res.summary.total res.summary.success
           res.summary.failed.length,
         res.archive⟩

example :
    download_videos "j" "t"
      (fun u => if u == "c" then .downloadError "boom" else .ok [.file (u ++ ".mp4")])
      ["a", "b", "c"] =
    .ok ⟨[("Content-Disposition", "attachment; filename=\"tiktok_videos_j.zip\""),
          ("X-Job-Id", "j"),
          ("X-Download-Summary", "\x7b\"total\": 3, \"success\": 2, \"failed\": 1\x7d")],
         [.file "a.mp4", .file "b.mp4", .file REPORT_FILENAME]⟩ := by decide

example :
    run_download_job "j" "t" (fun _ => .ok []) ["a"] = .error .noArtifacts := by decide

/-! ## Lemmas about the fetch loop and the job runner -/

theorem fetchLoop_failed (fetch : String → FetchOutcome) (urls : List String) :
    (fetchLoop fetch urls).failed = urls.filterMap (failEntryOf fetch) := by
  induction urls with
  | nil => rfl
  | cons u rest ih => cases h : fetch u <;> simp [fetchLoop, failEntryOf, h, ih]

theorem fetchLoop_success (fetch : String → FetchOutcome) (urls : List String) :
    (fetchLoop fetch urls).success = (urls.filter (fun u => (fetch u).isOk)).length := by
  induction urls with
  | nil => rfl
  | cons u rest ih => cases h : fetch u <;> simp [fetchLoop, FetchOutcome.isOk, h, ih]

theorem fetchLoop_count (fetch : String → FetchOutcome) (urls : List String) :
    (fetchLoop fetch urls).success + (fetchLoop fetch urls).failed.length = urls.length := by
  induction urls with
  | nil => rfl
  | cons u rest ih => cases h : fetch u <;> simp [fetchLoop, h] <;> omega

theorem fetchLoop_workspace_of_all_fail (fetch : String → FetchOutcome)
    (urls : List String) (h : ∀ u ∈ urls, (fetch u).isOk = false) :
    (fetchLoop fetch urls).workspace = [] := by
  induction urls with
  | nil => rfl
  | cons u rest ih =>
    have hu := h u (by simp)
    have hrest := ih (fun v hv => h v (by simp [hv]))
    cases hf : fetch u <;> rw [hf] at hu <;>
      simp [fetchLoop, FetchOutcome.isOk, hf, hrest] at hu ⊢

theorem run_download_job_error_iff (job_id generated_at : String)
    (fetch : String → FetchOutcome) (urls : List String) :
    run_download_job job_id generated_at fetch urls = .error .noArtifacts ↔
      ((fetchLoop fetch urls).workspace.filter FsEntry.isFile) = [] := by
  unfold run_download_job
  split <;> rename_i h <;> simp_all [List.isEmpty_iff]

theorem run_download_job_ok_elim (job_id generated_at : String)
    (fetch : String → FetchOutcome) (urls : List String) (res : JobResult)
    (h : run_download_job job_id generated_at fetch urls = .ok res) :
    res = ⟨(fetchLoop fetch urls).workspace ++ [FsEntry.file REPORT_FILENAME],
           ⟨job_id, urls.length, (fetchLoop fetch urls).success,
            (fetchLoop fetch urls).failed, generated_at⟩⟩ := by
  unfold run_download_job at h
  split at h
  · exact absurd h (by simp)
  · exact (Except.ok.inj h).symm

/-! ## Claims about the job runner -/

/-- Claim C1: for every batch processed by the job runner, the returned
summary satisfies success count + length of the failed list = total count,
total is the input length, and every input URL is accounted for exactly once:
the failed list is exactly the input-order list of `{url, reason}` entries of
the URLs whose fetch raised, and success counts exactly the URLs whose fetch
returned. -/
theorem claim_C1 (job_id generated_at : String) (fetch : String → FetchOutcome)
    (urls : List String) (res : JobResult)
    (h : run_download_job job_id generated_at fetch urls = .ok res) :
    res.summary.total = urls.length ∧
    res.summary.success + res.summary.failed.length = res.summary.total ∧
    res.summary.failed = urls.filterMap (failEntryOf fetch) ∧
    res.summary.success = (urls.filter (fun u => (fetch u).isOk)).length := by
  rw [run_download_job_ok_elim job_id generated_at fetch urls res h]
  exact ⟨rfl, fetchLoop_count fetch urls, fetchLoop_failed fetch urls,
         fetchLoop_success fetch urls⟩

/-- A fetch oracle for the C1 witness: two successes, one failure. -/
def cFetch1 : String → FetchOutcome :=
  fun u => if u == "c" then .downloadError "boom" else .ok [.file (u ++ ".mp4")]

/-- The job result of `cFetch1` on `["a", "b", "c"]`. -/
def cRes1 : JobResult :=
  ⟨[.file "a.mp4", .file "b.mp4", .file REPORT_FILENAME],
   ⟨"j", 3, 2, [⟨"c", "boom"⟩], "t"⟩⟩

/-- Witness for C1 at a concrete mixed batch. -/
theorem claim_C1_witness :
    run_download_job "j" "t" cFetch1 ["a", "b", "c"] = .ok cRes1 ∧
    (cRes1.summary.total = ["a", "b", "c"].length ∧
     cRes1.summary.success + cRes1.summary.failed.length = cRes1.summary.total ∧
     cRes1.summary.failed = ["a", "b", "c"].filterMap (failEntryOf cFetch1) ∧
     cRes1.summary.success =
       (["a", "b", "c"].filter (fun u => (cFetch1 u).isOk)).length) :=
  ⟨by decide, claim_C1 "j" "t" cFetch1 ["a", "b", "c"] cRes1 (by decide)⟩

/-- Claim C6: a failure of any single URL's fetch — whether `DownloadError`
or any other exception — never aborts the batch: the failed list of the loop
is exactly the input-order `filterMap` of per-URL failure entries over the
whole input (so every URL after a failure is still processed), the success
count is the number of non-raising fetches, and both kinds of exception
contribute exactly the entry `{url, reason}`. -/
theorem claim_C6 (fetch : String → FetchOutcome) (urls : List String) :
    (fetchLoop fetch urls).failed = urls.filterMap (failEntryOf fetch) ∧
    (fetchLoop fetch urls).success = (urls.filter (fun u => (fetch u).isOk)).length ∧
    (∀ u r, fetch u = .downloadError r ∨ fetch u = .otherError r →
      failEntryOf fetch u = some ⟨u, r⟩) :=
  ⟨fetchLoop_failed fetch urls, fetchLoop_success fetch urls, by
    intro u r h
    cases h with
    | inl h => simp [failEntryOf, h]
    | inr h => simp [failEntryOf, h]⟩

/-- A fetch oracle for the C6 witness: a `DownloadError`, another exception,
and a success, in that order. -/
def cFetch6 : String → FetchOutcome :=
  fun u =>
    if u == "a" then .downloadError "da"
    else if u == "b" then .otherError "ob"
    else .ok [.file "c.mp4"]

/-- Witness for C6: both exception kinds yield a failed entry and the loop
reaches the later URLs. -/
theorem claim_C6_witness :
    ((fetchLoop cFetch6 ["a", "b", "c"]).failed =
        ["a", "b", "c"].filterMap (failEntryOf cFetch6) ∧
     (fetchLoop cFetch6 ["a", "b", "c"]).success =
        (["a", "b", "c"].filter (fun u => (cFetch6 u).isOk)).length ∧
     (∀ u r, cFetch6 u = .downloadError r ∨ cFetch6 u = .otherError r →
        failEntryOf cFetch6 u = some ⟨u, r⟩)) ∧
    failEntryOf cFetch6 "a" = some ⟨"a", "da"⟩ ∧
    failEntryOf cFetch6 "b" = some ⟨"b", "ob"⟩ ∧
    (fetchLoop cFetch6 ["a", "b", "c"]).success = 1 :=
  ⟨claim_C6 cFetch6 ["a", "b", "c"],
   (claim_C6 cFetch6 ["a", "b", "c"]).2.2 "a" "da" (Or.inl (by decide)),
   (claim_C6 cFetch6 ["a", "b", "c"]).2.2 "b" "ob" (Or.inr (by decide)),
   by decide⟩

/-- Claim C7: if after the fetch loop the workspace contains zero regular
files, the job fails with the `NoArtifacts` `RuntimeError` and the endpoint
returns a 500 error instead of an archive — regardless of what the summary's
success count says; in particular this happens whenever every fetch fails. -/
theorem claim_C7 (job_id generated_at : String) (fetch : String → FetchOutcome)
    (urls : List String) :
    (((fetchLoop fetch urls).workspace.filter FsEntry.isFile) = [] →
      run_download_job job_id generated_at fetch urls = .error .noArtifacts ∧
      download_videos job_id generated_at fetch urls = .error ⟨500, MSG_DOWNLOAD_FAILED⟩) ∧
    ((∀ u ∈ urls, (fetch u).isOk = false) →
      run_download_job job_id generated_at fetch urls = .error .noArtifacts ∧
      download_videos job_id generated_at fetch urls = .error ⟨500, MSG_DOWNLOAD_FAILED⟩) := by
  have key : ((fetchLoop fetch urls).workspace.filter FsEntry.isFile) = [] →
      run_download_job job_id generated_at fetch urls = .error .noArtifacts ∧
      download_videos job_id generated_at fetch urls = .error ⟨500, MSG_DOWNLOAD_FAILED⟩ := by
    intro h
    have hrun := (run_download_job_error_iff job_id generated_at fetch urls).2 h
    exact ⟨hrun, by simp [download_videos, hrun]⟩
  refine ⟨key, fun h => key ?_⟩
  rw [fetchLoop_workspace_of_all_fail fetch urls h]
  rfl

/-- Witness for C7: a batch whose single fetch "succeeds" without producing a
file still reports one success yet ends in `NoArtifacts` with a 500. -/
theorem claim_C7_witness :
    ((fetchLoop (fun _ => FetchOutcome.ok []) ["u"]).workspace.filter FsEntry.isFile = []) ∧
    (fetchLoop (fun _ => FetchOutcome.ok []) ["u"]).success = 1 ∧
    run_download_job "j" "t" (fun _ => FetchOutcome.ok []) ["u"] = .error .noArtifacts ∧
    download_videos "j" "t" (fun _ => FetchOutcome.ok []) ["u"] =
      .error ⟨500, MSG_DOWNLOAD_FAILED⟩ :=
  ⟨by decide, by decide,
   ((claim_C7 "j" "t" (fun _ => FetchOutcome.ok []) ["u"]).1 (by decide)).1,
   ((claim_C7 "j" "t" (fun _ => FetchOutcome.ok []) ["u"]).1 (by decide)).2⟩

/-- Claim C8: cleanup never raises to its caller (its embedding is a total
function with no error case, because the loop body's `try` is closed by
`except Exception: continue`), and whatever the filesystem operations do —
each may raise arbitrarily — a deletion is attempted for every path in the
list, in order. -/
theorem claim_C8 (fs : FsOps) (paths : List String) :
    cleanup_paths fs paths = paths := by
  induction paths with
  | nil => rfl
  | cons p rest ih => cases h : cleanupOne fs p <;> simp [cleanup_paths, h, ih]

/-- Claim C10: the zero-files check behind `NoArtifacts` counts exactly the
regular files among the immediate children of the workspace — entries that
are directories do not count, even when files sit inside them — and it runs
on the workspace before the report file is appended, so the report can never
satisfy it; on success the archive is the pre-check workspace plus the
report. -/
theorem claim_C10 (job_id generated_at : String) (fetch : String → FetchOutcome)
    (urls : List String) :
    (run_download_job job_id generated_at fetch urls = .error .noArtifacts ↔
      ((fetchLoop fetch urls).workspace.filter FsEntry.isFile) = []) ∧
    ((∀ e ∈ (fetchLoop fetch urls).workspace, e.isFile = false) →
      run_download_job job_id generated_at fetch urls = .error .noArtifacts) ∧
    (∀ res, run_download_job job_id generated_at fetch urls = .ok res →
      res.archive = (fetchLoop fetch urls).workspace ++ [FsEntry.file REPORT_FILENAME]) := by
  refine ⟨run_download_job_error_iff job_id generated_at fetch urls, fun h => ?_, ?_⟩
  · exact (run_download_job_error_iff job_id generated_at fetch urls).2
      (List.filter_eq_nil_iff.2 (by simpa using h))
  · intro res hres
    rw [run_download_job_ok_elim job_id generated_at fetch urls res hres]

/-- Witness for C10: a fetch that only creates a subdirectory containing a
media file still ends in `NoArtifacts`. -/
theorem claim_C10_witness :
    (∀ e ∈ (fetchLoop (fun _ => FetchOutcome.ok [FsEntry.dir "sub" ["inner.mp4"]])
        ["u"]).workspace, e.isFile = false) ∧
    run_download_job "j" "t" (fun _ => FetchOutcome.ok [FsEntry.dir "sub" ["inner.mp4"]])
        ["u"] = .error .noArtifacts :=
  ⟨by decide,
   (claim_C10 "j" "t" (fun _ => FetchOutcome.ok [FsEntry.dir "sub" ["inner.mp4"]])
      ["u"]).2.1 (by decide)⟩

/-! ## Lemmas about the validator loop -/

theorem cleanLoop_error_of_invalid (rest : List String) :
    ∀ (seen cleaned : List String) (raw e : String), raw ∈ rest → pyStrip raw ≠ "" →
      ensure_valid_url (pyStrip raw) = .error e →
      ∃ e2, cleanLoop seen cleaned rest = .error e2 := by
  induction rest with
  | nil => intro seen cleaned raw e h _ _; exact absurd h (List.not_mem_nil raw)
  | cons head tail ih =>
    intro seen cleaned raw e hmem hne herr
    by_cases hh : pyStrip head = ""
    · have hraw : raw ∈ tail := by
        rcases List.mem_cons.1 hmem with h1 | h1
        · exact absurd hh (h1 ▸ hne)
        · exact h1
      obtain ⟨e2, h2⟩ := ih seen cleaned raw e hraw hne herr
      exact ⟨e2, by simp [cleanLoop, hh, h2]⟩
    · cases hv : ensure_valid_url (pyStrip head) with
      | error e3 => exact ⟨e3, by simp [cleanLoop, hh, hv]⟩
      | ok n =>
        have hraw : raw ∈ tail := by
          rcases List.mem_cons.1 hmem with h1 | h1
          · subst h1
            rw [herr] at hv
            exact absurd hv (by simp)
          · exact h1
        by_cases hs : n ∈ seen
        · obtain ⟨e2, h2⟩ := ih seen cleaned raw e hraw hne herr
          exact ⟨e2, by simp [cleanLoop, hh, hv, hs, h2]⟩
        · obtain ⟨e2, h2⟩ := ih (n :: seen) (cleaned ++ [n]) raw e hraw hne herr
          exact ⟨e2, by simp [cleanLoop, hh, hv, hs, h2]⟩

/-! ## Claims about the validator -/

/-- Counterexample to C2 as stated: in the input
`["https://www.tiktok.com/@user/video/123", "not a url", "https://example.com/x"]`
the first entry is valid, yet validation does not strip the invalid entries
and succeed — `_ensure_valid_url` raises on `"not a url"` and the whole
request fails. -/
theorem claim_C2_counterexample :
    ensure_valid_url "https://www.tiktok.com/@user/video/123" =
      .ok "https://www.tiktok.com/@user/video/123" ∧
    validate_urls ["https://www.tiktok.com/@user/video/123", "not a url",
      "https://example.com/x"] = .error MSG_SCHEME := by decide

/-- Claim C2 (amended): only empty-after-strip entries are silently dropped;
a malformed or off-domain entry is not stripped — its `ValueError` fails the
whole validation, even when valid entries are present. -/
theorem claim_C2_amended (urls : List String) (raw e : String)
    (h1 : raw ∈ urls) (h2 : pyStrip raw ≠ "")
    (h3 : ensure_valid_url (pyStrip raw) = .error e) :
    ∃ e2, validate_urls urls = .error e2 := by
  obtain ⟨e2, h⟩ := cleanLoop_error_of_invalid urls [] [] raw e h1 h2 h3
  exact ⟨e2, by simp [validate_urls, h]⟩

/-- Witness for the amended C2 at the concrete input of the claim. -/
theorem claim_C2_witness :
    "not a url" ∈ (["https://www.tiktok.com/@user/video/123", "not a url",
        "https://example.com/x"] : List String) ∧
    pyStrip "not a url" ≠ "" ∧
    ensure_valid_url (pyStrip "not a url") = .error MSG_SCHEME ∧
    (∃ e2, validate_urls ["https://www.tiktok.com/@user/video/123", "not a url",
        "https://example.com/x"] = .error e2) :=
  ⟨by decide, by decide, by decide,
   claim_C2_amended _ "not a url" MSG_SCHEME (by decide) (by decide) (by decide)⟩

set_option maxHeartbeats 4000000 in
/-- Counterexample to C3 as stated: 101 copies of one individually valid URL
— an input list whose length exceeds `MAX_URLS` with every entry valid —
validate successfully, because the ceiling is checked only after
deduplication. -/
theorem claim_C3_counterexample :
    MAX_URLS < (List.replicate 101 "http://tiktok.com/a").length ∧
    (∀ raw ∈ List.replicate 101 "http://tiktok.com/a",
       ensure_valid_url raw = .ok raw) ∧
    validate_urls (List.replicate 101 "http://tiktok.com/a") =
      .ok ["http://tiktok.com/a"] := by decide

/-- Claim C3 (amended): the batch-size ceiling is enforced on the cleaned,
deduplicated list: whenever more than `MAX_URLS` entries survive cleaning,
validation fails with the maximum-URLs `ValueError`. -/
theorem claim_C3_amended (urls cleaned : List String)
    (h1 : cleanLoop [] [] urls = .ok cleaned) (h2 : MAX_URLS < cleaned.length) :
    validate_urls urls = .error MSG_MAX := by
  have hne : cleaned ≠ [] := by
    intro h0
    rw [h0] at h2
    simp [MAX_URLS] at h2
  simp [validate_urls, h1, hne, h2]

/-- 101 pairwise distinct individually valid URLs. -/
def manyUrls : List String :=
  (List.range 101).map (fun i => "http://tiktok.com/" ++ toString i)

set_option maxHeartbeats 12000000 in
/-- Witness for the amended C3: 101 distinct valid URLs survive cleaning and
are rejected with the maximum-URLs message. -/
theorem claim_C3_witness :
    cleanLoop [] [] manyUrls = .ok manyUrls ∧
    MAX_URLS < manyUrls.length ∧
    validate_urls manyUrls = .error MSG_MAX :=
  ⟨by decide, by decide, claim_C3_amended manyUrls manyUrls (by decide) (by decide)⟩

/-! ## Deduplication: claim C4 -/

/-- First-occurrence deduplication, transcribed from the words of claim C4:
keep the first occurrence of each element, in input order. -/
def dedupFirst : List String → List String
  | [] => []
  | x :: xs => x :: dedupFirst (xs.filter (fun y => !(y == x)))
termination_by l => l.length
decreasing_by
  simp only [List.length_cons]
  exact Nat.lt_succ_of_le (List.length_filter_le _ _)

/-- The normalized value an input entry contributes to the cleaned list:
`none` for entries that strip to empty (silently dropped); invalid entries
also map to `none`, but they abort validation altogether, so under a
successful validation every surviving entry comes through `some`. -/
def normOf (raw : String) : Option String :=
  if pyStrip raw = "" then none
  else
    match ensure_valid_url (pyStrip raw) with
    | .ok n => some n
    | .error _ => none

/-- First-occurrence deduplication relative to an already-seen set: the dedup
discipline of the validator loop, separated from validation. -/
def dedupFirstEx (seen : List String) : List String → List String
  | [] => []
  | x :: xs =>
    if seen.contains x then dedupFirstEx seen xs
    else x :: dedupFirstEx (x :: seen) xs

theorem dedupFirstEx_eq_dedupFirst (l : List String) :
    ∀ seen, dedupFirstEx seen l = dedupFirst (l.filter (fun x => !(seen.contains x))) := by
  induction l with
  | nil => intro seen; simp [dedupFirstEx, dedupFirst]
  | cons x xs ih =>
    intro seen
    by_cases hx : x ∈ seen
    · rw [show dedupFirstEx seen (x :: xs) = dedupFirstEx seen xs by
          simp [dedupFirstEx, hx], ih seen]
      have hfilter : (x :: xs).filter (fun y => !(seen.contains y)) =
          xs.filter (fun y => !(seen.contains y)) := by
        simp [List.filter_cons, hx]
      rw [hfilter]
    · rw [show dedupFirstEx seen (x :: xs) = x :: dedupFirstEx (x :: seen) xs by
          simp [dedupFirstEx, hx], ih (x :: seen)]
      have hfilter : (x :: xs).filter (fun y => !(seen.contains y)) =
          x :: xs.filter (fun y => !(seen.contains y)) := by
        simp [List.filter_cons, hx]
      rw [hfilter]
      rw [show dedupFirst (x :: xs.filter (fun y => !(seen.contains y))) =
            x :: dedupFirst ((xs.filter (fun y => !(seen.contains y))).filter
              (fun y => !(y == x))) from by rw [dedupFirst]]
      congr 1
      rw [List.filter_filter]
      refine congrArg dedupFirst (List.filter_congr ?_)
      intro a _
      simp only [List.contains_cons, Bool.not_or, Bool.and_comm]

theorem cleanLoop_ok_eq (rest : List String) :
    ∀ seen cleaned out, cleanLoop seen cleaned rest = .ok out →
      out = cleaned ++ dedupFirstEx seen (rest.filterMap normOf) := by
  induction rest with
  | nil =>
    intro seen cleaned out h
    simp only [cleanLoop] at h
    simp [← Except.ok.inj h, dedupFirstEx]
  | cons raw rest ih =>
    intro seen cleaned out h
    by_cases hh : pyStrip raw = ""
    · rw [show cleanLoop seen cleaned (raw :: rest) = cleanLoop seen cleaned rest by
          simp [cleanLoop, hh]] at h
      simpa [normOf, hh] using ih seen cleaned out h
    · cases hv : ensure_valid_url (pyStrip raw) with
      | error e =>
        rw [show cleanLoop seen cleaned (raw :: rest) = .error e by
            simp [cleanLoop, hh, hv]] at h
        exact absurd h (by simp)
      | ok n =>
        have hnorm : normOf raw = some n := by simp [normOf, hh, hv]
        by_cases hs : n ∈ seen
        · rw [show cleanLoop seen cleaned (raw :: rest) = cleanLoop seen cleaned rest by
              simp [cleanLoop, hh, hv, hs]] at h
          rw [ih seen cleaned out h]
          simp [hnorm, dedupFirstEx, hs]
        · rw [show cleanLoop seen cleaned (raw :: rest) =
                cleanLoop (n :: seen) (cleaned ++ [n]) rest by
              simp [cleanLoop, hh, hv, hs]] at h
          rw [ih (n :: seen) (cleaned ++ [n]) out h]
          simp [hnorm, dedupFirstEx, hs]

theorem cleanLoop_ok_nodup (rest : List String) :
    ∀ seen cleaned out, cleanLoop seen cleaned rest = .ok out →
      cleaned.Nodup → (∀ x ∈ cleaned, x ∈ seen) → out.Nodup := by
  induction rest with
  | nil =>
    intro seen cleaned out h hn _
    simp only [cleanLoop] at h
    exact Except.ok.inj h ▸ hn
  | cons raw rest ih =>
    intro seen cleaned out h hn hsub
    by_cases hh : pyStrip raw = ""
    · rw [show cleanLoop seen cleaned (raw :: rest) = cleanLoop seen cleaned rest by
          simp [cleanLoop, hh]] at h
      exact ih seen cleaned out h hn hsub
    · cases hv : ensure_valid_url (pyStrip raw) with
      | error e =>
        rw [show cleanLoop seen cleaned (raw :: rest) = .error e by
            simp [cleanLoop, hh, hv]] at h
        exact absurd h (by simp)
      | ok n =>
        by_cases hs : n ∈ seen
        · rw [show cleanLoop seen cleaned (raw :: rest) = cleanLoop seen cleaned rest by
              simp [cleanLoop, hh, hv, hs]] at h
          exact ih seen cleaned out h hn hsub
        · rw [show cleanLoop seen cleaned (raw :: rest) =
                cleanLoop (n :: seen) (cleaned ++ [n]) rest by
              simp [cleanLoop, hh, hv, hs]] at h
          apply ih (n :: seen) (cleaned ++ [n]) out h
          · simp only [List.nodup_append, List.nodup_cons]
            refine ⟨hn, by simp, ?_⟩
            intro a ha hmem
            simp only [List.mem_singleton] at hmem
            exact hs (hmem ▸ hsub a ha)
          · intro x hx
            rcases List.mem_append.1 hx with hx1 | hx1
            · exact List.mem_cons_of_mem n (hsub x hx1)
            · simp only [List.mem_singleton] at hx1
              exact hx1 ▸ List.mem_cons_self n seen

theorem validate_urls_ok_elim (urls cleaned : List String)
    (h : validate_urls urls = .ok cleaned) :
    cleanLoop [] [] urls = .ok cleaned := by
  unfold validate_urls at h
  cases hc : cleanLoop [] [] urls with
  | error e => rw [hc] at h; exact absurd h (by simp)
  | ok c =>
    rw [hc] at h
    by_cases h0 : c = []
    · simp [h0] at h
    · by_cases h1 : MAX_URLS < c.length
      · simp [h0, h1] at h
      · simp only [if_neg h0, if_neg h1] at h
        rw [Except.ok.inj h]

/-- Claim C4: whenever validation succeeds, the validated list is exactly the
first-occurrence deduplication (by the validated URL string itself) of the
stripped, non-empty entries in input order — no duplicates, first occurrence
wins, first-seen order preserved. -/
theorem claim_C4 (urls cleaned : List String) (h : validate_urls urls = .ok cleaned) :
    cleaned = dedupFirst (urls.filterMap normOf) ∧ cleaned.Nodup := by
  have hcl := validate_urls_ok_elim urls cleaned h
  constructor
  · rw [cleanLoop_ok_eq urls [] [] cleaned hcl, dedupFirstEx_eq_dedupFirst]
    simp
  · exact cleanLoop_ok_nodup urls [] [] cleaned hcl List.nodup_nil (by simp)

/-- Witness for C4 at a concrete input with whitespace, an empty entry and a
duplicate. -/
theorem claim_C4_witness :
    validate_urls ["http://tiktok.com/a", " http://tiktok.com/b ", "",
        "http://tiktok.com/a"] =
      .ok ["http://tiktok.com/a", "http://tiktok.com/b"] ∧
    (["http://tiktok.com/a", "http://tiktok.com/b"] =
        dedupFirst ((["http://tiktok.com/a", " http://tiktok.com/b ", "",
          "http://tiktok.com/a"] : List String).filterMap normOf) ∧
     (["http://tiktok.com/a", "http://tiktok.com/b"] : List String).Nodup) :=
  ⟨by decide, claim_C4 _ _ (by decide)⟩

/-! ## The acceptance condition: claim C5 -/

/-- The acceptance condition exactly as claim C5 words it: the URL parses,
its scheme is http or https, and its hostname — compared case-insensitively —
equals one of the allow-listed domains or is a subdomain of one, i.e. ends
with `"."` followed by an allow-listed domain. -/
def claim_accepts (s : String) : Prop :=
  ∃ parsed, pyUrlsplit s = .ok parsed ∧
    (parsed.scheme = "http" ∨ parsed.scheme = "https") ∧
    ∃ d, d ∈ TIKTOK_DOMAINS ∧
      (hostOf parsed = d ∨ pyEndswith (hostOf parsed) ("." ++ d) = true)

theorem hostAllowed_iff (h : String) :
    hostAllowed h = true ↔
      ∃ d, d ∈ TIKTOK_DOMAINS ∧ (h = d ∨ pyEndswith h ("." ++ d) = true) := by
  simp [hostAllowed, List.any_eq_true]

/-- Claim C5: a string is accepted by `_ensure_valid_url` (returned
unchanged) precisely when its parsed scheme is http or https and its
hostname, case-insensitively, equals or is a subdomain of an allow-listed
domain; every other string produces a validation error. -/
theorem claim_C5 (s : String) :
    (ensure_valid_url s = .ok s ↔ claim_accepts s) ∧
    (ensure_valid_url s = .ok s ∨ ∃ e, ensure_valid_url s = .error e) := by
  unfold claim_accepts
  cases hp : pyUrlsplit s with
  | error e =>
    have he : ensure_valid_url s = .error e := by simp [ensure_valid_url, hp]
    rw [he]
    constructor
    · constructor
      · intro h; exact absurd h (by simp)
      · rintro ⟨p, hp2, -⟩
        exact absurd hp2 (by simp)
    · exact Or.inr ⟨e, rfl⟩
  | ok parsed =>
    cases h1 : (parsed.scheme == "http" || parsed.scheme == "https") with
    | false =>
      have he : ensure_valid_url s = .error MSG_SCHEME := by
        simp only [ensure_valid_url, hp, h1, Bool.not_false, if_true]
      rw [he]
      constructor
      · constructor
        · intro h; exact absurd h (by simp)
        · rintro ⟨p, hp2, hsch, -⟩
          obtain rfl : parsed = p := Except.ok.inj hp2
          have h1t : (parsed.scheme == "http" || parsed.scheme == "https") = true := by
            rcases hsch with h | h <;> simp [h]
          rw [h1] at h1t
          exact absurd h1t (by simp)
      · exact Or.inr ⟨MSG_SCHEME, rfl⟩
    | true =>
      cases h2 : hostAllowed (hostOf parsed) with
      | false =>
        have he : ensure_valid_url s = .error MSG_DOMAIN := by
          simp only [ensure_valid_url, hp, h1, h2, Bool.not_true, Bool.false_eq_true,
            if_false]
        rw [he]
        constructor
        · constructor
          · intro h; exact absurd h (by simp)
          · rintro ⟨p, hp2, -, d, hd, hdisj⟩
            obtain rfl : parsed = p := Except.ok.inj hp2
            have h2t : hostAllowed (hostOf parsed) = true :=
              (hostAllowed_iff (hostOf parsed)).2 ⟨d, hd, hdisj⟩
            rw [h2] at h2t
            exact absurd h2t (by simp)
        · exact Or.inr ⟨MSG_DOMAIN, rfl⟩
      | true =>
        have hok : ensure_valid_url s = .ok s := by
          simp only [ensure_valid_url, hp, h1, h2, Bool.not_true, Bool.false_eq_true,
            if_false, if_true]
        rw [hok]
        constructor
        · constructor
          · intro _
            refine ⟨parsed, rfl, ?_, (hostAllowed_iff (hostOf parsed)).1 h2⟩
            rw [Bool.or_eq_true] at h1
            rcases h1 with h | h
            · exact Or.inl (by simpa using h)
            · exact Or.inr (by simpa using h)
          · intro _; rfl
        · exact Or.inl rfl

/-- Witness for C5: instantiation at a concrete allow-listed URL. -/
theorem claim_C5_witness :
    (ensure_valid_url "https://vm.tiktok.com/xyz" = .ok "https://vm.tiktok.com/xyz" ↔
      claim_accepts "https://vm.tiktok.com/xyz") ∧
    (ensure_valid_url "https://vm.tiktok.com/xyz" = .ok "https://vm.tiktok.com/xyz" ∨
      ∃ e, ensure_valid_url "https://vm.tiktok.com/xyz" = .error e) :=
  claim_C5 "https://vm.tiktok.com/xyz"

/-- A filesystem oracle whose every operation raises. -/
def cFs8 : FsOps :=
  ⟨fun _ => .error "boom", fun _ => .error "boom",
   fun _ => .error "boom", fun _ => .error "boom"⟩

/-- Witness for C8: even when every filesystem operation raises, deletion is
attempted for both paths and nothing escapes. -/
theorem claim_C8_witness : cleanup_paths cFs8 ["a", "b"] = ["a", "b"] :=
  claim_C8 cFs8 ["a", "b"]

/-! ## Response headers: claim C9 -/

/-- Value of one response header of the endpoint result, if any. -/
def headerOf (r : Except HttpErr HttpResponse) (k : String) : Option String :=
  match r with
  | .ok resp => List.lookup k resp.headers
  | .error _ => none

/-- Counterexample to C9 as stated: on a successful three-URL job with two
successes and one failure, the X-Download-Summary header value carries
Python's default `json.dumps` separators — a space after every colon and
comma — and is not the compact no-whitespace JSON the claim asserts. -/
theorem claim_C9_counterexample :
    headerOf (download_videos "j" "t" cFetch1 ["a", "b", "c"]) "X-Download-Summary" =
      some "\x7b\"total\": 3, \"success\": 2, \"failed\": 1\x7d" ∧
    headerOf (download_videos "j" "t" cFetch1 ["a", "b", "c"]) "X-Download-Summary" ≠
      some "\x7b\"total\":3,\"success\":2,\"failed\":1\x7d" := by decide

/-- Claim C9 (amended): on a successful job the response carries an
X-Download-Summary header whose value is the `json.dumps` rendering of the
object with keys total, success, failed — with Python's default separators,
i.e. a space after every colon and comma, not the compact form — where
failed equals the length of the summary's failed list, and a
Content-Disposition header whose quoted filename is
`tiktok_videos_<job_id>.zip`, which ends with `_<job_id>.zip`. -/
theorem claim_C9_amended (job_id generated_at : String) (fetch : String → FetchOutcome)
    (urls : List String) (res : JobResult)
    (h : run_download_job job_id generated_at fetch urls = .ok res) :
    ∃ resp, download_videos job_id generated_at fetch urls = .ok resp ∧
      List.lookup "X-Download-Summary" resp.headers =
        some (json_dumps_summary_counts res.summary.total res.summary.success
          res.summary.failed.length) ∧
      json_dumps_summary_counts res.summary.total res.summary.success
          res.summary.failed.length =
        "\x7b\"total\": " ++ toString res.summary.total ++ ", \"success\": " ++
          toString res.summary.success ++ ", \"failed\": " ++
          toString res.summary.failed.length ++ "\x7d" ∧
      List.lookup "Content-Disposition" resp.headers =
        some ("attachment; filename=\"" ++ zip_filename job_id ++ "\"") ∧
      ∃ stem, zip_filename job_id = stem ++ "_" ++ job_id ++ ".zip" := by
  refine ⟨⟨response_headers job_id res.summary.total res.summary.success
        res.summary.failed.length, res.archive⟩, ?_, ?_, rfl, ?_, "tiktok_videos", ?_⟩
  · simp [download_videos, h]
  · rfl
  · rfl
  · rfl

/-- Witness for the amended C9 at a concrete successful job. -/
theorem claim_C9_witness :
    run_download_job "j" "t" cFetch1 ["a", "b", "c"] = .ok cRes1 ∧
    (∃ resp, download_videos "j" "t" cFetch1 ["a", "b", "c"] = .ok resp ∧
      List.lookup "X-Download-Summary" resp.headers =
        some (json_dumps_summary_counts cRes1.summary.total cRes1.summary.success
          cRes1.summary.failed.length) ∧
      json_dumps_summary_counts cRes1.summary.total cRes1.summary.success
          cRes1.summary.failed.length =
        "\x7b\"total\": " ++ toString cRes1.summary.total ++ ", \"success\": " ++
          toString cRes1.summary.success ++ ", \"failed\": " ++
          toString cRes1.summary.failed.length ++ "\x7d" ∧
      List.lookup "Content-Disposition" resp.headers =
        some ("attachment; filename=\"" ++ zip_filename "j" ++ "\"") ∧
      ∃ stem, zip_filename "j" = stem ++ "_" ++ "j" ++ ".zip") :=
  ⟨by decide, claim_C9_amended "j" "t" cFetch1 ["a", "b", "c"] cRes1 (by decide)⟩

end TikTokDL
